import Mathlib

/-!
Shallow embedding of `djangorestframework/renderers.py`: the renderer
classes, their `render` methods, and the response negotiation helper
`BaseRenderer.can_handle_response`, together with theorems about their
behaviour.

External collaborators that the module calls but does not implement
(the Django template loader and template rendering, `json.dumps`,
`dict2xml`, `yaml.dump`, the builtin `str`, `quote_plus`,
`media_type_matches`) are passed to the embedded functions as explicit
parameters, so the theorems quantify over them.  Helper functions of the
repository that live outside this module (`get_media_type_params` and
`add_media_type_param` from `djangorestframework.utils.mediatypes`) are
modelled from the spec and say so in their doc comments.  Stateful code
(the single assignment to `self.view.response.status` in
`DocumentingTemplateRenderer.render`) is embedded by returning the final
status together with the list of status values written, in order.
-/

/-- A Python object handed to a renderer.  The renderers never inspect the
object themselves (serialisation is always delegated to an external
function such as `json.dumps`), so a small value type suffices. -/
inductive Obj where
  | str : String → Obj
  | int : Int → Obj
  deriving DecidableEq, Repr

/-- Modelled from the spec: a media type is a `type/subtype` token plus an
ordered mapping of parameter name to value (data-model section).  The
sources pass media types around as strings and read or set parameters via
`djangorestframework.utils.mediatypes` (whose source is outside this
module); here the parsed form is used directly. -/
structure MediaType where
  base : String
  params : List (String × String)
  deriving DecidableEq, Repr

/-- Modelled from the spec: `extractParams(mediaType)` of the MediaType
Matcher, the repository helper `get_media_type_params` (its source is not
part of this module).  Returns the ordered parameter mapping of the media
type; an absent media type has no parameters. -/
def get_media_type_params (media_type : Option MediaType) : List (String × String) :=
  match media_type with
  | none => []
  | some m => m.params

/-- Modelled from the spec: `withParam(mediaType, key, value)` of the
MediaType Matcher, the repository helper `add_media_type_param` (its
source is not part of this module).  Returns a new media type with the
parameter set to the given value; an absent media type stays absent. -/
def add_media_type_param (media_type : Option MediaType) (key value : String) :
    Option MediaType :=
  media_type.map (fun m => ⟨m.base, m.params.filter (fun p => p.1 != key) ++ [(key, value)]⟩)

/-- Membership in the Python 2 constant `string.printable`: digits, ASCII
letters, punctuation and whitespace, i.e. the code points 32 to 126
together with tab (9), newline (10), vertical tab (11), form feed (12)
and carriage return (13). -/
def stringPrintable (c : Char) : Bool :=
  (32 ≤ c.toNat && c.toNat ≤ 126) || c.toNat == 9 || c.toNat == 10 ||
    c.toNat == 11 || c.toNat == 12 || c.toNat == 13

/-- The parts of the bound view and of the incoming HTTP request that the
renderers read: `view.kwargs` (keyword arguments captured from the URL
path), `view.request.GET` (query parameters) and `view.request.path`. -/
structure Request where
  kwargs : List (String × String)
  GET : List (String × String)
  path : String

/-- `BaseRenderer._FORMAT_QUERY_PARAM`. -/
def _FORMAT_QUERY_PARAM : String := "format"

/-- `BaseRenderer.can_handle_response`: read an explicit format from the
URL keyword arguments, falling back to the query parameters; when one is
present, answer by comparing it with the format short-name declared on
the renderer class; otherwise match the declared media type against the
accept media type with the external `media_type_matches`. -/
def can_handle_response (req : Request) (self_format : Option String)
    (self_media_type : Option String)
    (media_type_matches : Option String → String → Bool)
    (accept : String) : Bool :=
  let format :=
    match req.kwargs.lookup _FORMAT_QUERY_PARAM with
    | some f => some f
    | none => req.GET.lookup _FORMAT_QUERY_PARAM
  match format with
  | some f => some f == self_format
  | none => media_type_matches self_media_type accept

/-- The static declaration of a renderer class: its `media_type` pattern
and its `format` short-name (both `None` on `BaseRenderer` itself). -/
structure RendererDesc where
  media_type : Option String
  format : Option String
  deriving DecidableEq, Repr

/-- Modelled from the spec: the Negotiator resolves the effective renderer
by walking the ordered candidate list declared on the view and returning
the first renderer that `can_handle_response` accepts; the selection loop
itself lives in the view layer, outside this module. -/
def selectRenderer (req : Request)
    (media_type_matches : Option String → String → Bool) (accept : String)
    (candidates : List RendererDesc) : Option RendererDesc :=
  candidates.find? (fun r =>
    can_handle_response req r.format r.media_type media_type_matches accept)

/-- `BaseRenderer.render`: an absent object renders to the empty string,
otherwise the builtin `str` conversion (external, passed in) applies. -/
def BaseRenderer.render (str_of : Obj → String) (obj : Option Obj)
    (media_type : Option MediaType) : String :=
  match obj with
  | none => ""
  | some o => str_of o

/-- The value of a nonempty all-digit character list, read in base 10;
`none` otherwise. -/
def digitsToNat (cs : List Char) : Option Nat :=
  if cs.isEmpty then none
  else if cs.all Char.isDigit then some (cs.foldl (fun n c => n * 10 + (c.toNat - 48)) 0)
  else none

/-- Models the Python builtin `int` applied to a string, as used on the
`indent` media type parameter: an optional sign followed by at least one
decimal digit parses to the signed value, anything else raises
`ValueError`, which is `none` here (an absent parameter raises
`TypeError`, handled at the call site through `Option.bind`). -/
def python_int (s : String) : Option Int :=
  match s.data with
  | '-' :: rest => (digitsToNat rest).map (fun n => -(n : Int))
  | '+' :: rest => (digitsToNat rest).map (fun n => (n : Int))
  | cs => (digitsToNat cs).map (fun n => (n : Int))

/-- `JSONRenderer.render`: an absent object renders to the empty string;
otherwise read the `indent` media type parameter, and on a successful
integer parse serialize with the indent clamped to at most 8 and at least
0 and with `sort_keys` set, while a missing or unparsable value falls
back to compact serialization without key sorting.  `dumps` stands for
the external `json.dumps(obj, cls=DateTimeAwareJSONEncoder, indent=...,
sort_keys=...)`, taking the object, the indent and the sort flag. -/
def JSONRenderer.render (dumps : Obj → Option Int → Bool → String)
    (obj : Option Obj) (media_type : Option MediaType) : String :=
  match obj with
  | none => ""
  | some o =>
    match ((get_media_type_params media_type).lookup "indent").bind python_int with
    | some i => dumps o (some (max (min i 8) 0)) true
    | none => dumps o none false

/-- `JSONPRenderer.callback_parameter`. -/
def JSONPRenderer.callback_parameter : String := "callback"

/-- `JSONPRenderer._get_callback`: the value of the callback query
parameter, with the name of the parameter itself as the fallback when the
parameter is absent. -/
def JSONPRenderer._get_callback (req : Request) : String :=
  (req.GET.lookup JSONPRenderer.callback_parameter).getD JSONPRenderer.callback_parameter

/-- `JSONPRenderer.render`: instantiate `renderer_class` (the JSON
renderer) on the same view, render the payload with it, and wrap the
result as `callback(payload);`.  The JSON renderer reads nothing from the
view, so only the request (for the callback) and the delegated call
appear. -/
def JSONPRenderer.render (dumps : Obj → Option Int → Bool → String)
    (req : Request) (obj : Option Obj) (media_type : Option MediaType) : String :=
  JSONPRenderer._get_callback req ++ "(" ++ JSONRenderer.render dumps obj media_type ++ ");"

/-- `XMLRenderer.render`: an absent object renders to the empty string,
otherwise the external `dict2xml` transformation applies. -/
def XMLRenderer.render (dict2xml : Obj → String) (obj : Option Obj)
    (media_type : Option MediaType) : String :=
  match obj with
  | none => ""
  | some o => dict2xml o

/-- `YAMLRenderer.render`: an absent object renders to the empty string,
otherwise the external `yaml.dump` applies. -/
def YAMLRenderer.render (yaml_dump : Obj → String) (obj : Option Obj)
    (media_type : Option MediaType) : String :=
  match obj with
  | none => ""
  | some o => yaml_dump o

/-- A value placed into a template rendering context.  The distinct
constructors mirror the distinct kinds of Python values the module puts
into a `RequestContext` mapping: plain strings, optional strings, the
object being rendered (or an optional extra object), the view reference,
the response object (carrying its status) and the list of formats. -/
inductive CtxVal where
  | str : String → CtxVal
  | optStr : Option String → CtxVal
  | obj : Option Obj → CtxVal
  | view : CtxVal
  | response : Nat → CtxVal
  | formats : List String → CtxVal
  deriving DecidableEq, Repr

/-- `TemplateRenderer.render`: an absent object renders to the empty
string; otherwise load the template named on the class and render it with
a context holding the object.  The Django loader and template are
external: `loader` maps a template name to the rendering function, and a
missing template (a raised `TemplateDoesNotExist`) is `none`. -/
def TemplateRenderer.render (loader : String → Option (List (String × CtxVal) → String))
    (template : String) (obj : Option Obj) (media_type : Option MediaType) :
    Option String :=
  match obj with
  | none => some ""
  | some o => (loader template).map (fun t => t [("object", CtxVal.obj (some o))])

/-- A renderer instance bound to the current view, as stored in
`view.renderers` and used by `DocumentingTemplateRenderer._get_content`:
whether the class is a subclass of `DocumentingTemplateRenderer` (the
`issubclass` test, a static capability of the class) and the bound
`render` method. -/
structure RendererC where
  isDocumenting : Bool
  render : Option Obj → Option MediaType → String

/-- The parts of the view object that `DocumentingTemplateRenderer`
reads: the request, the response status, the declared renderers, the
rendered formats, the optional `extra` attribute and the optional
`_METHOD_PARAM` attribute. -/
structure DocView where
  request : Request
  responseStatus : Nat
  renderers : List RendererC
  renderedFormats : List String
  extra : Option Obj
  methodParam : Option String

/-- The process-wide external capabilities `DocumentingTemplateRenderer`
uses: the Django template loader (with rendering folded in: a template
name yields a function from context to output, or `none` when loading
raises), whether `settings.LOGIN_URL` resolves, the login URL itself and
the external `quote_plus`. -/
structure Externals where
  loader : String → Option (List (String × CtxVal) → String)
  login_url_resolves : Bool
  LOGIN_URL : String
  quote_plus : String → String

/-- The template name tried for a status-specific template:
`"%d.html" % status`. -/
def statusTemplateName (status : Nat) : String :=
  toString status ++ ".html"

/-- The login URL computed at the start of
`DocumentingTemplateRenderer.render`: when `settings.LOGIN_URL` resolves,
the URL with a `next` parameter holding the quoted request path. -/
def login_url (ext : Externals) (req : Request) : Option String :=
  if ext.login_url_resolves then some (ext.LOGIN_URL ++ "?next=" ++ ext.quote_plus req.path)
  else none

/-- `DocumentingTemplateRenderer._get_content`: pick the declared
renderers that are not documenting renderers; with none left, a fixed
placeholder.  Otherwise add `indent=4` to the media type, render with the
first remaining renderer, and replace a result containing a character
outside `string.printable` by the binary-content placeholder (the string
is returned exactly as written in the source, with its `%d` intact).  The
`request` argument mirrors the unused parameter of the source. -/
def DocumentingTemplateRenderer._get_content (view : DocView) (request : Request)
    (obj : Option Obj) (media_type : Option MediaType) : String :=
  match view.renderers.filter (fun r => !r.isDocumenting) with
  | [] => "[No renderers were found]"
  | r :: _ =>
    let media_type := add_media_type_param media_type "indent" "4"
    let content := r.render obj media_type
    if !(content.data.all stringPrintable) then "[%d bytes of binary content]"
    else content

/-- The context mapping built for the default template in
`DocumentingTemplateRenderer.render`, in source order. -/
def default_context (ext : Externals) (view : DocView) (obj : Option Obj) :
    List (String × CtxVal) :=
  [("content", CtxVal.obj obj),
   ("view", CtxVal.view),
   ("response", CtxVal.response view.responseStatus),
   ("available_formats", CtxVal.formats view.renderedFormats),
   ("login_url", CtxVal.optStr (login_url ext view.request)),
   ("extra", CtxVal.obj view.extra),
   ("FORMAT_PARAM", CtxVal.str _FORMAT_QUERY_PARAM),
   ("METHOD_PARAM", CtxVal.optStr view.methodParam)]

/-- The outcome of one `DocumentingTemplateRenderer.render` call: the
returned body, the final `view.response.status`, and every value written
to `view.response.status` during the call, in order. -/
structure RenderOut where
  body : String
  status : Nat
  statusWrites : List Nat
  deriving DecidableEq, Repr

/-- `DocumentingTemplateRenderer.render`: try the status-specific
template (a loading failure is swallowed); when it exists, render it with
a context holding only the `_get_content` result and return with the
response untouched.  Otherwise load the default template named on the
class (a failure there propagates: `none`), render it with the full
context, and afterwards rewrite a 204 response status to 200. -/
def DocumentingTemplateRenderer.render (ext : Externals) (template : String)
    (view : DocView) (obj : Option Obj) (media_type : Option MediaType) :
    Option RenderOut :=
  match ext.loader (statusTemplateName view.responseStatus) with
  | some t =>
    let content := DocumentingTemplateRenderer._get_content view view.request obj media_type
    some ⟨t [("content", CtxVal.str content)], view.responseStatus, []⟩
  | none =>
    match ext.loader template with
    | none => none
    | some t =>
      let ret := t (default_context ext view obj)
      if view.responseStatus == 204 then some ⟨ret, 200, [200]⟩
      else some ⟨ret, view.responseStatus, []⟩

/-- Follows the words of the spec, for comparison only: the same
rendering as `DocumentingTemplateRenderer.render` but with the 204-to-200
status rewrite removed, used to state that the rewrite does not affect
the returned body. -/
def DocumentingTemplateRenderer.render_without_rewrite (ext : Externals) (template : String)
    (view : DocView) (obj : Option Obj) (media_type : Option MediaType) :
    Option RenderOut :=
  match ext.loader (statusTemplateName view.responseStatus) with
  | some t =>
    let content := DocumentingTemplateRenderer._get_content view view.request obj media_type
    some ⟨t [("content", CtxVal.str content)], view.responseStatus, []⟩
  | none =>
    match ext.loader template with
    | none => none
    | some t =>
      let ret := t (default_context ext view obj)
      some ⟨ret, view.responseStatus, []⟩

/-- C1 (amended): every renderer except `JSONPRenderer` and the
documenting template renderers returns the empty string when rendering an
absent object (`BaseRenderer`, `JSONRenderer`, `XMLRenderer`,
`YAMLRenderer` and `TemplateRenderer` all do); `JSONPRenderer.render` has
no absent-object guard of its own and instead wraps the empty JSON
payload, returning the callback name followed by the bare call
suffix. -/
theorem render_none_empty_except_jsonp
    (str_of : Obj → String) (dumps : Obj → Option Int → Bool → String)
    (dict2xml : Obj → String) (yaml_dump : Obj → String)
    (loader : String → Option (List (String × CtxVal) → String)) (template : String)
    (req : Request) (media_type : Option MediaType) :
    BaseRenderer.render str_of none media_type = "" ∧
    JSONRenderer.render dumps none media_type = "" ∧
    XMLRenderer.render dict2xml none media_type = "" ∧
    YAMLRenderer.render yaml_dump none media_type = "" ∧
    TemplateRenderer.render loader template none media_type = some "" ∧
    JSONPRenderer.render dumps req none media_type =
      JSONPRenderer._get_callback req ++ "();" := by
  refine ⟨rfl, rfl, rfl, rfl, rfl, ?_⟩
  show JSONPRenderer._get_callback req ++ "(" ++ "" ++ ");" =
    JSONPRenderer._get_callback req ++ "();"
  rw [String.append_empty, String.append_assoc]
  rfl

/-- C1, counterexample to the claim as stated: `JSONPRenderer.render`
applied to an absent object (with no callback query parameter) returns
the nonempty string `callback();`, not the empty string. -/
theorem jsonp_render_none_nonempty :
    JSONPRenderer.render (fun _ _ _ => "") ⟨[], [], ""⟩ none none = "callback();" ∧
    ("callback();" : String) ≠ "" := by
  exact ⟨rfl, by decide⟩

/-- C5: for a present object, `JSONRenderer.render` reads the `indent`
media type parameter; a value that parses as an integer is clamped into
`[0, 8]` and the serializer runs with that indent and with keys sorted,
while an absent or non-integer value falls back to the compact form with
unsorted keys, without error.  In particular `indent=999` produces
exactly the `indent=8` output and `indent=-5` produces exactly the
`indent=0` output. -/
theorem json_render_indent_clamp (dumps : Obj → Option Int → Bool → String) (o : Obj) :
    (∀ (media_type : Option MediaType) (s : String) (i : Int),
        (get_media_type_params media_type).lookup "indent" = some s →
        python_int s = some i →
        JSONRenderer.render dumps (some o) media_type =
            dumps o (some (max (min i 8) 0)) true ∧
        0 ≤ max (min i 8) 0 ∧ max (min i 8) 0 ≤ 8) ∧
    (∀ (media_type : Option MediaType),
        ((get_media_type_params media_type).lookup "indent").bind python_int = none →
        JSONRenderer.render dumps (some o) media_type = dumps o none false) ∧
    (∀ (mt1 mt2 : Option MediaType),
        (get_media_type_params mt1).lookup "indent" = some "999" →
        (get_media_type_params mt2).lookup "indent" = some "8" →
        JSONRenderer.render dumps (some o) mt1 = JSONRenderer.render dumps (some o) mt2) ∧
    (∀ (mt1 mt2 : Option MediaType),
        (get_media_type_params mt1).lookup "indent" = some "-5" →
        (get_media_type_params mt2).lookup "indent" = some "0" →
        JSONRenderer.render dumps (some o) mt1 = JSONRenderer.render dumps (some o) mt2) := by
  refine ⟨?_, ?_, ?_, ?_⟩
  · intro media_type s i hs hi
    refine ⟨?_, le_max_right _ _, max_le (le_trans (min_le_right i 8) le_rfl) (by norm_num)⟩
    simp [JSONRenderer.render, hs, hi]
  · intro media_type h
    simp [JSONRenderer.render, h]
  · intro mt1 mt2 h1 h2
    have c1 : max (min (999 : Int) 8) 0 = 8 := by decide
    have c2 : max (min (8 : Int) 8) 0 = 8 := by decide
    simp [JSONRenderer.render, h1, h2, python_int, digitsToNat, c1, c2]
  · intro mt1 mt2 h1 h2
    have c1 : max (min (-5 : Int) 8) 0 = 0 := by decide
    have c2 : max (min (0 : Int) 8) 0 = 0 := by decide
    simp [JSONRenderer.render, h1, h2, python_int, digitsToNat, c1, c2]

/-- C5, witness: on a media type carrying `indent=999` the rendered
output coincides with the output for `indent=8`, at a concrete
serializer that exposes its indent argument. -/
theorem json_render_indent_clamp_witness :
    (get_media_type_params (some ⟨"application/json", [("indent", "999")]⟩)).lookup "indent" =
        some "999" ∧
    (get_media_type_params (some ⟨"application/json", [("indent", "8")]⟩)).lookup "indent" =
        some "8" ∧
    JSONRenderer.render (fun _ i sk => toString i ++ (if sk then "S" else "N"))
        (some (Obj.int 1)) (some ⟨"application/json", [("indent", "999")]⟩) =
      JSONRenderer.render (fun _ i sk => toString i ++ (if sk then "S" else "N"))
        (some (Obj.int 1)) (some ⟨"application/json", [("indent", "8")]⟩) :=
  ⟨rfl, rfl,
    (json_render_indent_clamp (fun _ i sk => toString i ++ (if sk then "S" else "N"))
        (Obj.int 1)).2.2.1 _ _ rfl rfl⟩

/-- C6: with an explicit format (the URL keyword argument taking priority
over the query parameter), `can_handle_response` answers exactly the
comparison of that value with the declared format short-name of the
renderer, independently of the accept media type and of the media type
matcher; hence the negotiated renderer is the first declared one whose
format short-name equals it. -/
theorem explicit_format_selection (req : Request) (f : String)
    (hf : req.kwargs.lookup _FORMAT_QUERY_PARAM = some f ∨
          (req.kwargs.lookup _FORMAT_QUERY_PARAM = none ∧
           req.GET.lookup _FORMAT_QUERY_PARAM = some f)) :
    (∀ (self_format self_media_type : Option String)
        (media_type_matches : Option String → String → Bool) (accept : String),
        can_handle_response req self_format self_media_type media_type_matches accept =
          (some f == self_format)) ∧
    (∀ (media_type_matches : Option String → String → Bool) (accept : String)
        (candidates : List RendererDesc),
        selectRenderer req media_type_matches accept candidates =
          candidates.find? (fun r => some f == r.format)) := by
  have hcan : ∀ (sf sm : Option String) (m : Option String → String → Bool) (a : String),
      can_handle_response req sf sm m a = (some f == sf) := by
    intro sf sm m a
    rcases hf with h | ⟨h1, h2⟩
    · simp [can_handle_response, h]
    · simp [can_handle_response, h1, h2]
  refine ⟨hcan, ?_⟩
  intro m a cs
  unfold selectRenderer
  congr 1
  funext r
  exact hcan r.format r.media_type m a

/-- C6, witness: with `format=json` in the URL keyword arguments and a
conflicting `format=xml` query parameter, the JSON renderer is selected
from a JSON/XML candidate list even though the accept media type is
`application/xml` and the matcher accepts everything. -/
theorem explicit_format_selection_witness :
    (⟨[("format", "json")], [("format", "xml")], ""⟩ : Request).kwargs.lookup
        _FORMAT_QUERY_PARAM = some "json" ∧
    selectRenderer ⟨[("format", "json")], [("format", "xml")], ""⟩ (fun _ _ => true)
        "application/xml"
        [⟨some "application/json", some "json"⟩, ⟨some "application/xml", some "xml"⟩] =
      some ⟨some "application/json", some "json"⟩ := by
  refine ⟨rfl, ?_⟩
  rw [(explicit_format_selection ⟨[("format", "json")], [("format", "xml")], ""⟩ "json"
    (Or.inl rfl)).2 (fun _ _ => true) "application/xml" _]
  rfl

/-- C7: `JSONPRenderer.render` returns the callback name, an opening
parenthesis, exactly the JSON payload that a `JSONRenderer` on the same
view produces for the same object and media type, a closing parenthesis
and a semicolon; the callback name is the value of the `callback` query
parameter when present and the literal string `callback` when absent. -/
theorem jsonp_wraps_json (dumps : Obj → Option Int → Bool → String)
    (req : Request) (obj : Option Obj) (media_type : Option MediaType) :
    JSONPRenderer.render dumps req obj media_type =
      JSONPRenderer._get_callback req ++ "(" ++
        JSONRenderer.render dumps obj media_type ++ ");" ∧
    (∀ c, req.GET.lookup "callback" = some c → JSONPRenderer._get_callback req = c) ∧
    (req.GET.lookup "callback" = none → JSONPRenderer._get_callback req = "callback") := by
  refine ⟨rfl, ?_, ?_⟩
  · intro c h
    simp [JSONPRenderer._get_callback, JSONPRenderer.callback_parameter, h]
  · intro h
    simp [JSONPRenderer._get_callback, JSONPRenderer.callback_parameter, h]

/-- C7, witness: with `callback=foo` the callback name is `foo` and the
rendered output is `foo(1);` around a serializer that yields `1`; the
full wrapped form is evaluated concretely. -/
theorem jsonp_wraps_json_witness :
    (⟨[], [("callback", "foo")], ""⟩ : Request).GET.lookup "callback" = some "foo" ∧
    JSONPRenderer._get_callback ⟨[], [("callback", "foo")], ""⟩ = "foo" ∧
    JSONPRenderer.render (fun _ _ _ => "1") ⟨[], [("callback", "foo")], ""⟩
        (some (Obj.int 1)) none = "foo(1);" := by
  refine ⟨rfl, (jsonp_wraps_json (fun _ _ _ => "1") ⟨[], [("callback", "foo")], ""⟩
    (some (Obj.int 1)) none).2.1 "foo" rfl, ?_⟩
  rfl

/-- C2, code-bug evidence: when the delegate output contains a
non-printable character (here the single byte 7), `_get_content` returns
the literal string with the unsubstituted `%d` placeholder, so the byte
length (1) does not appear in the returned content. -/
theorem binary_content_placeholder_missing_length :
    DocumentingTemplateRenderer._get_content
        ⟨⟨[], [], ""⟩, 200, [⟨false, fun _ _ => "\x07"⟩], [], none, none⟩
        ⟨[], [], ""⟩ (some (Obj.int 1)) (some ⟨"application/json", []⟩) =
      "[%d bytes of binary content]" ∧
    ("[%d bytes of binary content]" : String) ≠ "[1 bytes of binary content]" :=
  ⟨rfl, by decide⟩

/-- C8: when a template named after the numeric response status exists,
`DocumentingTemplateRenderer.render` returns that template rendered with
the singleton context holding only the `_get_content` result, leaves the
response status untouched, writes no status, and the result does not
involve the default template at all. -/
theorem status_template_path (ext : Externals) (template : String) (view : DocView)
    (obj : Option Obj) (media_type : Option MediaType)
    (t : List (String × CtxVal) → String)
    (hT : ext.loader (statusTemplateName view.responseStatus) = some t) :
    DocumentingTemplateRenderer.render ext template view obj media_type =
      some ⟨t [("content", CtxVal.str
          (DocumentingTemplateRenderer._get_content view view.request obj media_type))],
        view.responseStatus, []⟩ := by
  unfold DocumentingTemplateRenderer.render
  rw [hT]

/-- C8, witness: a concrete view with status 200 and a loader providing a
`200.html` template; the status-specific path is taken and the default
template name is never consulted. -/
theorem status_template_path_witness :
    ((fun s => if s = "200.html" then some (fun _ => "S") else none) :
        String → Option (List (String × CtxVal) → String)) (statusTemplateName 200) =
      some (fun _ => "S") ∧
    DocumentingTemplateRenderer.render
        ⟨(fun s => if s = "200.html" then some (fun _ => "S") else none), false, "", id⟩
        "renderer.html"
        ⟨⟨[], [], ""⟩, 200, [⟨false, fun _ _ => "X"⟩], [], none, none⟩
        (some (Obj.int 1)) none =
      some ⟨"S", 200, []⟩ := by
  refine ⟨rfl, ?_⟩
  rw [status_template_path
    ⟨(fun s => if s = "200.html" then some (fun _ => "S") else none), false, "", id⟩
    "renderer.html" ⟨⟨[], [], ""⟩, 200, [⟨false, fun _ _ => "X"⟩], [], none, none⟩
    (some (Obj.int 1)) none (fun _ => "S") rfl]

/-- C10: on the status-specific-template path the response status is left
unchanged (in particular a 204 stays 204) and nothing is written to it:
the 204-to-200 rewrite belongs only to the default-template path. -/
theorem status_template_keeps_204 (ext : Externals) (template : String) (view : DocView)
    (obj : Option Obj) (media_type : Option MediaType)
    (t : List (String × CtxVal) → String)
    (hT : ext.loader (statusTemplateName view.responseStatus) = some t)
    (h204 : view.responseStatus = 204) :
    ∀ r, DocumentingTemplateRenderer.render ext template view obj media_type = some r →
      r.status = 204 ∧ r.statusWrites = [] := by
  intro r hr
  unfold DocumentingTemplateRenderer.render at hr
  rw [hT] at hr
  have h := Option.some.inj hr
  subst h
  exact ⟨h204, rfl⟩

/-- C10, witness: a concrete 204 response rendered through a present
`204.html` template keeps status 204 with no status writes. -/
theorem status_template_keeps_204_witness :
    ((fun s => if s = "204.html" then some (fun _ => "S4") else none) :
        String → Option (List (String × CtxVal) → String)) (statusTemplateName 204) =
      some (fun _ => "S4") ∧
    (⟨⟨[], [], ""⟩, 204, [⟨false, fun _ _ => "X"⟩], [], none, none⟩ :
        DocView).responseStatus = 204 ∧
    ((⟨"S4", 204, []⟩ : RenderOut).status = 204 ∧
     (⟨"S4", 204, []⟩ : RenderOut).statusWrites = []) :=
  ⟨rfl, rfl,
    status_template_keeps_204
      ⟨(fun s => if s = "204.html" then some (fun _ => "S4") else none), false, "", id⟩
      "renderer.html" ⟨⟨[], [], ""⟩, 204, [⟨false, fun _ _ => "X"⟩], [], none, none⟩
      (some (Obj.int 1)) none (fun _ => "S4") rfl rfl ⟨"S4", 204, []⟩ rfl⟩

/-- C3 (amended): on the default-template path the returned body is the
default template rendered over `default_context`, whose `content` entry
is the raw object being rendered (not the `_get_content` output, which is
only computed on the status-specific path), together with the view
reference, the response object and the list of available formats. -/
theorem default_template_context (ext : Externals) (template : String) (view : DocView)
    (obj : Option Obj) (media_type : Option MediaType)
    (t : List (String × CtxVal) → String)
    (hS : ext.loader (statusTemplateName view.responseStatus) = none)
    (hD : ext.loader template = some t) :
    (DocumentingTemplateRenderer.render ext template view obj media_type).map
        RenderOut.body = some (t (default_context ext view obj)) ∧
    (default_context ext view obj).lookup "content" = some (CtxVal.obj obj) ∧
    (default_context ext view obj).lookup "view" = some CtxVal.view ∧
    (default_context ext view obj).lookup "response" =
      some (CtxVal.response view.responseStatus) ∧
    (default_context ext view obj).lookup "available_formats" =
      some (CtxVal.formats view.renderedFormats) := by
  refine ⟨?_, rfl, rfl, rfl, rfl⟩
  unfold DocumentingTemplateRenderer.render
  rw [hS, hD]
  cases hb : (view.responseStatus == 204) <;> simp [hb]

/-- C3, counterexample to the claim as stated: at a concrete view whose
first non-documenting renderer outputs `X`, the default-template context
carries the raw object `1` under `content`, which differs from the
`_get_content` output injected as a string. -/
theorem default_context_content_is_raw_object :
    DocumentingTemplateRenderer.render
        ⟨(fun s => if s = "renderer.html" then some (fun _ => "T") else none), false, "", id⟩
        "renderer.html"
        ⟨⟨[], [], ""⟩, 200, [⟨false, fun _ _ => "X"⟩], [], none, none⟩
        (some (Obj.int 1)) (some ⟨"text/html", []⟩) = some ⟨"T", 200, []⟩ ∧
    (default_context
        ⟨(fun s => if s = "renderer.html" then some (fun _ => "T") else none), false, "", id⟩
        ⟨⟨[], [], ""⟩, 200, [⟨false, fun _ _ => "X"⟩], [], none, none⟩
        (some (Obj.int 1))).lookup "content" ≠
      some (CtxVal.str (DocumentingTemplateRenderer._get_content
        ⟨⟨[], [], ""⟩, 200, [⟨false, fun _ _ => "X"⟩], [], none, none⟩
        ⟨[], [], ""⟩ (some (Obj.int 1)) (some ⟨"text/html", []⟩))) :=
  ⟨rfl, by decide⟩

/-- C3, witness: at the same concrete view the amended theorem applies:
the body is the default template over `default_context` and the `content`
entry is the raw object. -/
theorem default_template_context_witness :
    ((fun s => if s = "renderer.html" then some (fun _ => "T") else none) :
        String → Option (List (String × CtxVal) → String)) (statusTemplateName 200) = none ∧
    ((fun s => if s = "renderer.html" then some (fun _ => "T") else none) :
        String → Option (List (String × CtxVal) → String)) "renderer.html" =
      some (fun _ => "T") ∧
    (DocumentingTemplateRenderer.render
        ⟨(fun s => if s = "renderer.html" then some (fun _ => "T") else none), false, "", id⟩
        "renderer.html"
        ⟨⟨[], [], ""⟩, 200, [⟨false, fun _ _ => "X"⟩], [], none, none⟩
        (some (Obj.int 1)) (some ⟨"text/html", []⟩)).map RenderOut.body = some "T" ∧
    (default_context
        ⟨(fun s => if s = "renderer.html" then some (fun _ => "T") else none), false, "", id⟩
        ⟨⟨[], [], ""⟩, 200, [⟨false, fun _ _ => "X"⟩], [], none, none⟩
        (some (Obj.int 1))).lookup "content" = some (CtxVal.obj (some (Obj.int 1))) := by
  refine ⟨rfl, rfl, ?_, ?_⟩
  · exact (default_template_context
      ⟨(fun s => if s = "renderer.html" then some (fun _ => "T") else none), false, "", id⟩
      "renderer.html" ⟨⟨[], [], ""⟩, 200, [⟨false, fun _ _ => "X"⟩], [], none, none⟩
      (some (Obj.int 1)) (some ⟨"text/html", []⟩) (fun _ => "T") rfl rfl).1
  · exact (default_template_context
      ⟨(fun s => if s = "renderer.html" then some (fun _ => "T") else none), false, "", id⟩
      "renderer.html" ⟨⟨[], [], ""⟩, 200, [⟨false, fun _ _ => "X"⟩], [], none, none⟩
      (some (Obj.int 1)) (some ⟨"text/html", []⟩) (fun _ => "T") rfl rfl).2.1

/-- C4: on the default-template path with response status 204, `render`
returns with final status 200, exactly one status write (the single 200),
and a body computed from the pre-rewrite context (its `response` entry
still reads 204); the body is identical to the one produced by the same
rendering with the rewrite removed. -/
theorem default_template_204_rewrite (ext : Externals) (template : String) (view : DocView)
    (obj : Option Obj) (media_type : Option MediaType)
    (t : List (String × CtxVal) → String)
    (hS : ext.loader (statusTemplateName view.responseStatus) = none)
    (hD : ext.loader template = some t)
    (h204 : view.responseStatus = 204) :
    DocumentingTemplateRenderer.render ext template view obj media_type =
      some ⟨t (default_context ext view obj), 200, [200]⟩ ∧
    (default_context ext view obj).lookup "response" = some (CtxVal.response 204) ∧
    DocumentingTemplateRenderer.render_without_rewrite ext template view obj media_type =
      some ⟨t (default_context ext view obj), 204, []⟩ := by
  refine ⟨?_, ?_, ?_⟩
  · unfold DocumentingTemplateRenderer.render
    rw [hS, hD, h204]
    rfl
  · show some (CtxVal.response view.responseStatus) = some (CtxVal.response 204)
    rw [h204]
  · unfold DocumentingTemplateRenderer.render_without_rewrite
    rw [hS, hD, h204]

/-- C4, witness: a concrete 204 response on the default-template path
ends with status 200 after a single write, while the rewrite-free
rendering returns the same body with status 204. -/
theorem default_template_204_rewrite_witness :
    ((fun s => if s = "renderer.html" then some (fun _ => "B") else none) :
        String → Option (List (String × CtxVal) → String)) (statusTemplateName 204) = none ∧
    ((fun s => if s = "renderer.html" then some (fun _ => "B") else none) :
        String → Option (List (String × CtxVal) → String)) "renderer.html" =
      some (fun _ => "B") ∧
    (⟨⟨[], [], ""⟩, 204, [⟨false, fun _ _ => "X"⟩], [], none, none⟩ :
        DocView).responseStatus = 204 ∧
    DocumentingTemplateRenderer.render
        ⟨(fun s => if s = "renderer.html" then some (fun _ => "B") else none), false, "", id⟩
        "renderer.html"
        ⟨⟨[], [], ""⟩, 204, [⟨false, fun _ _ => "X"⟩], [], none, none⟩
        (some (Obj.int 1)) none = some ⟨"B", 200, [200]⟩ ∧
    DocumentingTemplateRenderer.render_without_rewrite
        ⟨(fun s => if s = "renderer.html" then some (fun _ => "B") else none), false, "", id⟩
        "renderer.html"
        ⟨⟨[], [], ""⟩, 204, [⟨false, fun _ _ => "X"⟩], [], none, none⟩
        (some (Obj.int 1)) none = some ⟨"B", 204, []⟩ := by
  refine ⟨rfl, rfl, rfl, ?_, ?_⟩
  · exact (default_template_204_rewrite
      ⟨(fun s => if s = "renderer.html" then some (fun _ => "B") else none), false, "", id⟩
      "renderer.html" ⟨⟨[], [], ""⟩, 204, [⟨false, fun _ _ => "X"⟩], [], none, none⟩
      (some (Obj.int 1)) none (fun _ => "B") rfl rfl rfl).1
  · exact (default_template_204_rewrite
      ⟨(fun s => if s = "renderer.html" then some (fun _ => "B") else none), false, "", id⟩
      "renderer.html" ⟨⟨[], [], ""⟩, 204, [⟨false, fun _ _ => "X"⟩], [], none, none⟩
      (some (Obj.int 1)) none (fun _ => "B") rfl rfl rfl).2.2

/-- C9 (amended): `_get_content` delegates to the first declared renderer
that is not a documenting renderer (the head of the filtered list is
exactly the first such element); with none available it returns the fixed
placeholder; otherwise it calls the delegate on the media type with
`indent=4` set and returns its output unchanged provided that output
consists solely of printable characters (a non-printable output is
replaced by the binary-content placeholder instead). -/
theorem get_content_delegate (view : DocView) (request : Request)
    (obj : Option Obj) (media_type : Option MediaType) :
    view.renderers.find? (fun r => !r.isDocumenting) =
      (view.renderers.filter (fun r => !r.isDocumenting)).head? ∧
    (view.renderers.filter (fun r => !r.isDocumenting) = [] →
      DocumentingTemplateRenderer._get_content view request obj media_type =
        "[No renderers were found]") ∧
    (∀ (r : RendererC) (rest : List RendererC),
      view.renderers.filter (fun r => !r.isDocumenting) = r :: rest →
      (r.render obj (add_media_type_param media_type "indent" "4")).data.all
          stringPrintable = true →
      DocumentingTemplateRenderer._get_content view request obj media_type =
        r.render obj (add_media_type_param media_type "indent" "4")) := by
  refine ⟨?_, ?_, ?_⟩
  · have h : ∀ l : List RendererC,
        l.find? (fun r => !r.isDocumenting) =
          (l.filter (fun r => !r.isDocumenting)).head? := by
      intro l
      induction l with
      | nil => rfl
      | cons a l ih =>
        cases ha : a.isDocumenting
        · rw [List.find?_cons_of_pos _ (by simp [ha]),
            List.filter_cons_of_pos (by simp [ha])]
          rfl
        · rw [List.find?_cons_of_neg _ (by simp [ha]),
            List.filter_cons_of_neg (by simp [ha])]
          exact ih
    exact h view.renderers
  · intro h
    unfold DocumentingTemplateRenderer._get_content
    rw [h]
  · intro r rest h hp
    unfold DocumentingTemplateRenderer._get_content
    rw [h]
    simp [hp]

/-- C9, counterexample to the claim as stated: a delegate whose output is
the single non-printable byte 7 does not have its output returned;
`_get_content` substitutes the binary-content placeholder. -/
theorem get_content_binary_not_delegate :
    RendererC.render ⟨false, fun _ _ => "\x07"⟩ (some (Obj.int 1))
        (add_media_type_param (some ⟨"application/json", []⟩) "indent" "4") = "\x07" ∧
    DocumentingTemplateRenderer._get_content
        ⟨⟨[], [], ""⟩, 200, [⟨false, fun _ _ => "\x07"⟩], [], none, none⟩
        ⟨[], [], ""⟩ (some (Obj.int 1)) (some ⟨"application/json", []⟩) ≠
      RendererC.render ⟨false, fun _ _ => "\x07"⟩ (some (Obj.int 1))
        (add_media_type_param (some ⟨"application/json", []⟩) "indent" "4") :=
  ⟨rfl, by decide⟩

/-- C9, witness: a view declaring a documenting renderer first and a
non-documenting one second delegates to the second; with the printable
output `X` the content is returned unchanged. -/
theorem get_content_delegate_witness :
    ((⟨⟨[], [], ""⟩, 200, [⟨true, fun _ _ => "DOC"⟩, ⟨false, fun _ _ => "X"⟩], [],
        none, none⟩ : DocView).renderers.filter (fun r => !r.isDocumenting) =
      [⟨false, fun _ _ => "X"⟩]) ∧
    (RendererC.render ⟨false, fun _ _ => "X"⟩ (some (Obj.int 1))
        (add_media_type_param (some ⟨"text/html", []⟩) "indent" "4")).data.all
      stringPrintable = true ∧
    DocumentingTemplateRenderer._get_content
        ⟨⟨[], [], ""⟩, 200, [⟨true, fun _ _ => "DOC"⟩, ⟨false, fun _ _ => "X"⟩], [],
          none, none⟩
        ⟨[], [], ""⟩ (some (Obj.int 1)) (some ⟨"text/html", []⟩) = "X" := by
  refine ⟨rfl, by decide, ?_⟩
  exact (get_content_delegate
    ⟨⟨[], [], ""⟩, 200, [⟨true, fun _ _ => "DOC"⟩, ⟨false, fun _ _ => "X"⟩], [],
      none, none⟩
    ⟨[], [], ""⟩ (some (Obj.int 1)) (some ⟨"text/html", []⟩)).2.2
    ⟨false, fun _ _ => "X"⟩ [] rfl (by decide)
